import Mathlib

/-!
Verification development for a small repository of MCP tool servers:
a Rhino.Compute adapter (`MCP_RhinoCompute/server.py` with
`helpers/helpers.py`) and a National Weather Service adapter
(`MCP1/server.py`).

Modelling conventions (shallow embedding of the Python code):
* Decoded JSON / Python values are `PyJson F`, where the type parameter
  `F` stands for Python floats, which we keep opaque (no float
  arithmetic is ever proved about).
* A Python computation that may raise is `Except String a`; the string
  is the stringified exception message `str(e)`.
* External library calls (HTTP requests, `json.loads`,
  `rhino3dm.CommonObject.Decode`, `float`/`int` parsing, `str()` of a
  float, filesystem queries) are oracle parameters, so every theorem
  quantifies over their behaviour.
-/

/-- A decoded JSON value / plain Python value.  `F` is the carrier for
Python floats, kept abstract. -/
inductive PyJson (F : Type) where
  | null : PyJson F
  | bool : Bool → PyJson F
  | int : Int → PyJson F
  | float : F → PyJson F
  | str : String → PyJson F
  | arr : List (PyJson F) → PyJson F
  | obj : List (String × PyJson F) → PyJson F

variable {F : Type}

/-- Python truthiness (`bool(x)`) of a decoded JSON value; `ft` decides
truthiness of the opaque floats (`x != 0.0`). -/
def PyJson.truthy (ft : F → Bool) : PyJson F → Bool
  | .null => false
  | .bool b => b
  | .int n => n != 0
  | .float x => ft x
  | .str s => !s.toList.isEmpty
  | .arr xs => !xs.isEmpty
  | .obj kvs => !kvs.isEmpty

/-- `x[k]` for a string key: dict lookup (KeyError when absent),
TypeError on every other value. -/
def PyJson.getKey : PyJson F → String → Except String (PyJson F)
  | .obj kvs, k =>
    match kvs.find? (fun kv => kv.1 = k) with
    | some kv => .ok kv.2
    | none => .error ("KeyError: " ++ k)
  | _, k => .error ("TypeError: value is not subscriptable by string key " ++ k)

/-- `x[i]` for an integer index: list indexing (IndexError when out of
range), single-character string for strings, TypeError otherwise. -/
def PyJson.getIdx : PyJson F → Nat → Except String (PyJson F)
  | .arr xs, i =>
    match xs.get? i with
    | some v => .ok v
    | none => .error "IndexError: list index out of range"
  | .str s, i =>
    match s.toList.get? i with
    | some c => .ok (.str (String.mk [c]))
    | none => .error "IndexError: string index out of range"
  | _, _ => .error "TypeError: value is not subscriptable by integer index"

/-- `x.get(k, default)`: only dicts have `.get` (AttributeError
otherwise); missing keys give the default. -/
def PyJson.getDefault : PyJson F → String → PyJson F → Except String (PyJson F)
  | .obj kvs, k, dflt =>
    match kvs.find? (fun kv => kv.1 = k) with
    | some kv => .ok kv.2
    | none => .ok dflt
  | _, _, _ => .error "AttributeError: value has no attribute get"

/-- Iteration `for x in v`: lists yield elements, strings yield
one-character strings, dicts yield their keys, everything else raises
TypeError. -/
def PyJson.pyIter : PyJson F → Except String (List (PyJson F))
  | .arr xs => .ok xs
  | .str s => .ok (s.toList.map (fun c => .str (String.mk [c])))
  | .obj kvs => .ok (kvs.map (fun kv => .str kv.1))
  | _ => .error "TypeError: value is not iterable"

/-- The rhino3dm classes that `save_3dm_file` dispatches on. -/
inductive RhinoClass where
  | curve | point | surface | mesh | brep | subd
deriving DecidableEq, BEq

/-- An opaque rhino3dm geometry object: an identity and the set of
rhino3dm classes it is an instance of (`isinstance` is membership). -/
structure Geom where
  id : Nat
  classes : List RhinoClass
deriving DecidableEq

/-- A value produced by `decode_gh_output`: a rhino3dm geometry object,
a Python float, a Python int, or the raw (possibly quote-stripped)
item data. -/
inductive GHVal (F : Type) where
  | geom : Geom → GHVal F
  | float : F → GHVal F
  | int : Int → GHVal F
  | raw : PyJson F → GHVal F

/-- Oracles for the external calls made by `decode_gh_output`:
`json.loads` on a string, `rhino3dm.CommonObject.Decode` (which may
raise, or return `None`, or return a geometry object), and Python
`float()` / `int()` parsing of strings. -/
structure DecodeOps (F : Type) where
  jsonLoads : String → Except String (PyJson F)
  commonDecode : PyJson F → Except String (Option Geom)
  parseFloat : String → Except String F
  parseInt : String → Except String Int

/-- helpers.py lines 34-36: remove one layer of surrounding double
quotes from string data (`data[1:-1]` when it starts and ends with a
double quote); non-string data is left untouched.  Strings are handled
through their character lists: `startswith` of the one-character
quote is a check on the first character, `endswith` on the last, and
`data[1:-1]` drops the first and last characters. -/
def stripQuotes : PyJson F → PyJson F
  | .str s =>
    if s.toList.head? == some '\x22' && s.toList.getLast? == some '\x22' then
      .str (String.mk ((s.toList.drop 1).dropLast))
    else .str s
  | d => d

/-- helpers.py lines 38-46, the geometry try-block:
`rhino3dm.CommonObject.Decode(json.loads(data))`; yields a geometry
object only when `json.loads` succeeds (so only on strings — it raises
TypeError otherwise), `Decode` does not raise, and the decoded object
is not `None`. -/
def tryGeom (ops : DecodeOps F) : PyJson F → Option Geom
  | .str s =>
    match ops.jsonLoads s with
    | .ok j =>
      match ops.commonDecode j with
      | .ok (some g) => some g
      | _ => none
    | .error _ => none
  | _ => none

/-- Python `'.' in data`: substring test on strings, element test on
lists (only a string element equals `'.'`), key test on dicts;
TypeError on non-container values. -/
def dotIn : PyJson F → Except String Bool
  | .str s => .ok (s.toList.contains '.')
  | .arr xs =>
    .ok (xs.any (fun j => match j with | .str s => s = "." | _ => false))
  | .obj kvs => .ok (kvs.any (fun kv => kv.1 = "."))
  | _ => .error "TypeError: argument of type is not iterable"

/-- helpers.py lines 47-56, the number try-block: `float(data)` when
`'.' in data`, otherwise `int(data)`; any exception (including the
TypeError raised by `'.' in data` on non-containers and by
`float`/`int` on lists and dicts) makes the block fail. -/
def tryNum (ops : DecodeOps F) (d : PyJson F) : Option (GHVal F) :=
  match dotIn d with
  | .error _ => none
  | .ok true =>
    match d with
    | .str s =>
      match ops.parseFloat s with
      | .ok x => some (.float x)
      | .error _ => none
    | _ => none
  | .ok false =>
    match d with
    | .str s =>
      match ops.parseInt s with
      | .ok n => some (.int n)
      | .error _ => none
    | _ => none

/-- helpers.py lines 33-58: the per-item fallback cascade of
`decode_gh_output` — strip quotes, try geometry, try number, fall back
to the (quote-stripped) data unchanged. -/
def decodeItem (ops : DecodeOps F) (d0 : PyJson F) : GHVal F :=
  match tryGeom ops (stripQuotes d0) with
  | some g => .geom g
  | none =>
    match tryNum ops (stripQuotes d0) with
    | some v => v
    | none => .raw (stripQuotes d0)

/-- The `item['data']` lookups of the decode loop, in order; the first
failing lookup raises. -/
def datasOf : List (PyJson F) → Except String (List (PyJson F))
  | [] => .ok []
  | item :: rest =>
    match item.getKey "data" with
    | .error e => .error e
    | .ok d =>
      match datasOf rest with
      | .error e => .error e
      | .ok ds => .ok (d :: ds)

/-- helpers.py lines 32-58: the decode loop, appending exactly one
result per branch item (the `item['data']` lookup may raise). -/
def decodeLoop (ops : DecodeOps F) : List (PyJson F) → Except String (List (GHVal F))
  | [] => .ok []
  | item :: rest =>
    match item.getKey "data" with
    | .error e => .error e
    | .ok d =>
      match decodeLoop ops rest with
      | .error e => .error e
      | .ok tl => .ok (decodeItem ops d :: tl)

/-- helpers.py lines 28-59, `decode_gh_output`: look up
`output['values'][0]['InnerTree'][tree_path]`, iterate the branch and
decode each item. -/
def decode_gh_output (ops : DecodeOps F) (output : PyJson F)
    (tree_path : String := "\x7b0\x7d") : Except String (List (GHVal F)) :=
  match output.getKey "values" with
  | .error e => .error e
  | .ok vs =>
    match vs.getIdx 0 with
    | .error e => .error e
    | .ok v0 =>
      match v0.getKey "InnerTree" with
      | .error e => .error e
      | .ok it =>
        match it.getKey tree_path with
        | .error e => .error e
        | .ok br =>
          match br.pyIter with
          | .error e => .error e
          | .ok items => decodeLoop ops items

/-!  The Grasshopper `DataTree` used by `add_parameter` and
`run_grasshopper_tool`.  The structure is modelled from the external
`compute_rhino3d.Grasshopper.DataTree` class the repository calls: a
parameter name and a dictionary from rendered path keys (`[0]` renders
as `{0}`) to item lists. -/

/-- A Grasshopper data tree: parameter name plus inner tree, the inner
tree being a key-ordered association list standing for the Python
dict. -/
structure DataTree (F : Type) where
  ParamName : String
  InnerTree : List (String × List (PyJson F))

/-- The rendered dictionary key of a Grasshopper tree path, e.g.
`[0]` becomes the string `{0}`. -/
def pathKey (path : List Int) : String :=
  "\x7b" ++ String.intercalate ";" (path.map toString) ++ "\x7d"

/-- `DataTree.Append(path, items)`: dict assignment
`InnerTree[pathKey path] = items` (replaces an existing key, otherwise
appends a new entry). -/
def DataTree.Append (t : DataTree F) (path : List Int)
    (items : List (PyJson F)) : DataTree F :=
  { t with InnerTree :=
      if t.InnerTree.any (fun kv => kv.1 = pathKey path) then
        t.InnerTree.map (fun kv =>
          if kv.1 = pathKey path then (kv.1, items) else kv)
      else t.InnerTree ++ [(pathKey path, items)] }

/-- `gh.DataTree(name)`: a fresh tree with the given parameter name and
an empty inner tree. -/
def DataTree.new (name : String) : DataTree F := ⟨name, []⟩

/-- helpers.py lines 23-26, `add_parameter`: build a one-branch data
tree `Append([0], [input_value])` named after the input. -/
def add_parameter (input_name : String) (input_value : PyJson F) : DataTree F :=
  (DataTree.new input_name).Append [0] [input_value]

/-!  `save_3dm_file`.  `isinstance` is modelled as membership of the
class tag in `Geom.classes`; the rhino3dm add calls
(`AddCurve`, `AddPoint`, `AddSurface`, `AddMesh`, `AddBrep`,
`Objects.Add`, `AddSubD`) are modelled as recording which method added
which object, and as non-raising (for an object passing the preceding
`isinstance` check the library add does not throw, so the surrounding
`try`/`except` never fires). -/

/-- Which `model.Objects` method a geometry object was added through. -/
inductive AddMethod where
  | addCurve | addPoint | addSurface | addMesh | addBrep | addGeneric | addSubD
deriving DecidableEq, BEq

/-- The observable effect of `save_3dm_file`: the objects added to the
`File3dm` model, each with the method used, and the list of
`model.Write` targets. -/
structure File3dmEffect where
  objects : List (AddMethod × Geom)
  written : List String
deriving DecidableEq

/-- helpers.py lines 65-115: one iteration of the `save_3dm_file`
loop — the chain of `isinstance` branches, each ending in `continue`.
The sixth branch (`isinstance(obj, rhino3dm.SubD)` → `Objects.Add`)
precedes the seventh (`hasattr(rhino3dm, "SubD") and isinstance(obj,
rhino3dm.SubD)` → `AddSubD`); `hasattrSubD` models the `hasattr`
test.  Non-geometry values match no branch and are skipped. -/
def addOne (hasattrSubD : Bool) (acc : List (AddMethod × Geom)) :
    GHVal F → List (AddMethod × Geom)
  | .geom g =>
    if g.classes.contains RhinoClass.curve then acc ++ [(AddMethod.addCurve, g)]
    else if g.classes.contains RhinoClass.point then acc ++ [(AddMethod.addPoint, g)]
    else if g.classes.contains RhinoClass.surface then acc ++ [(AddMethod.addSurface, g)]
    else if g.classes.contains RhinoClass.mesh then acc ++ [(AddMethod.addMesh, g)]
    else if g.classes.contains RhinoClass.brep then acc ++ [(AddMethod.addBrep, g)]
    else if g.classes.contains RhinoClass.subd then acc ++ [(AddMethod.addGeneric, g)]
    else if hasattrSubD && g.classes.contains RhinoClass.subd then
      acc ++ [(AddMethod.addSubD, g)]
    else acc
  | _ => acc

/-- helpers.py lines 61-116, `save_3dm_file`: fold the branch chain
over the input list, then `model.Write(filename)` exactly once. -/
def save_3dm_file (hasattrSubD : Bool) (objects : List (GHVal F))
    (filename : String) : File3dmEffect :=
  { objects := objects.foldl (addOne hasattrSubD) []
    written := [filename] }

/-- The type dispatch save_3dm_file is specified to perform: the first
matching class in the fixed order Curve, Point, Surface, Mesh, Brep,
SubD (the SubD match using the generic `Objects.Add`), `none` for
values matching no class.  This definition follows the claim text and
is compared against the loop above. -/
def specAdd : GHVal F → Option (AddMethod × Geom)
  | .geom g =>
    if g.classes.contains RhinoClass.curve then some (AddMethod.addCurve, g)
    else if g.classes.contains RhinoClass.point then some (AddMethod.addPoint, g)
    else if g.classes.contains RhinoClass.surface then some (AddMethod.addSurface, g)
    else if g.classes.contains RhinoClass.mesh then some (AddMethod.addMesh, g)
    else if g.classes.contains RhinoClass.brep then some (AddMethod.addBrep, g)
    else if g.classes.contains RhinoClass.subd then some (AddMethod.addGeneric, g)
    else none
  | _ => none

/-!  The Rhino.Compute MCP server (`MCP_RhinoCompute/server.py`).
HTTP responses and the filesystem are oracles; each tool returns an
`Except String (PyJson F)` whose `.error` case is an exception
propagating out of the tool, together with the list of external
requests/evaluations it issued. -/

/-- An HTTP response as the code observes it: a status code and the
result of `.json()` (which may raise on a non-JSON body). -/
structure HttpResponse (F : Type) where
  status : Nat
  body : Except String (PyJson F)

/-- Oracles for the `os.path` calls the server makes. -/
structure FsOps where
  isabs : String → Bool
  abspath : String → String
  pathExists : String → Bool

/-- helpers.py lines 118-120, `resolve_path`: the path itself when
absolute, else `os.path.abspath` of it. -/
def resolve_path (isabs : String → Bool) (abspath : String → String)
    (path : String) : String :=
  if isabs path then path else abspath path

/-- A `try: ... except Exception as e: ...` block whose body returns a
value: a raised exception is turned into the handler's value, so the
block itself never propagates. -/
def pyTry (body : Except String (PyJson F)) (handler : String → PyJson F) :
    Except String (PyJson F) :=
  match body with
  | .ok v => .ok v
  | .error e => .ok (handler e)

/-- The `{"error": msg}` dictionaries the tools return on caught
exceptions. -/
def errorDict (msg : String) : PyJson F := .obj [("error", .str msg)]

/-- server.py lines 29-60, `get_rhinocompute_version_details`: one GET
of the version endpoint (the oracle `resp`), reshaped into
`{"status": "success", "version_info": response.json()}` inside a
catch-all `try`. -/
def get_rhinocompute_version_details (resp : Except String (HttpResponse F)) :
    Except String (PyJson F) :=
  pyTry
    (match resp with
     | .error e => .error e
     | .ok r =>
       match r.body with
       | .error e => .error e
       | .ok j => .ok (.obj [("status", .str "success"), ("version_info", j)]))
    (fun e => errorDict ("Failed to contact Rhino.Compute: " ++ e))

/-- server.py lines 130-174, `read_grasshopper_inputs_outputs`:
resolve the pointer, return the not-found error dict without any
request when the file does not exist, otherwise POST to `/io` (oracle
`post_io`) and reshape the JSON inside a catch-all `try`.  The second
component lists the requests issued. -/
def read_grasshopper_inputs_outputs (fs : FsOps)
    (post_io : Except String (HttpResponse F)) (pointer : String) :
    Except String (PyJson F) × List String :=
  let p := resolve_path fs.isabs fs.abspath pointer
  if !fs.pathExists p then
    (.ok (errorDict ("Grasshopper file not found: \x27" ++ p ++ "\x27")), [])
  else
    (pyTry
      (match post_io with
       | .error e => .error e
       | .ok r =>
         match r.body with
         | .error e => .error e
         | .ok data =>
           match data.getDefault "Description" (.str "Grasshopper definition") with
           | .error e => .error e
           | .ok desc =>
             match data.getDefault "Inputs" (.arr []) with
             | .error e => .error e
             | .ok ins =>
               match data.getDefault "Outputs" (.arr []) with
               | .error e => .error e
               | .ok outs =>
                 match data.getDefault "Icon" .null with
                 | .error e => .error e
                 | .ok icon =>
                   .ok (.obj [("status", .str "success"), ("path", .str p),
                     ("description", desc), ("inputs", ins),
                     ("outputs", outs), ("icon", icon)]))
      (fun e => errorDict ("Failed to contact Rhino.Compute: " ++ e)),
     ["POST io"])

/-- server.py lines 176-218, `run_grasshopper_tool`: resolve the
pointer, return the not-found error dict without evaluating anything
when the file does not exist; otherwise, inside a catch-all `try`,
build one `add_parameter` tree per input, evaluate the definition
(oracle `evalDef`), decode the output, create the output path (oracle
`createPath`, standing for `create_file_path` and its filesystem
calls) and save the decoded objects.  The second component lists the
evaluations issued. -/
def run_grasshopper_tool (fs : FsOps) (dops : DecodeOps F)
    (evalDef : String → List (DataTree F) → Except String (PyJson F))
    (createPath : Except String String) (hasattrSubD : Bool)
    (pointer : String) (inputs : List (String × PyJson F)) :
    Except String (PyJson F) × List String :=
  let p := resolve_path fs.isabs fs.abspath pointer
  if !fs.pathExists p then
    (.ok (errorDict ("Grasshopper file not found: \x27" ++ p ++ "\x27")), [])
  else
    let gh_inputs := inputs.map (fun nv => add_parameter nv.1 nv.2)
    (pyTry
      (match evalDef p gh_inputs with
       | .error e => .error e
       | .ok output =>
         match decode_gh_output dops output with
         | .error e => .error e
         | .ok decoded =>
           match createPath with
           | .error e => .error e
           | .ok output_path =>
             let _effect := save_3dm_file hasattrSubD decoded output_path
             .ok (.obj [("status", .str "success"), ("pointer", .str p),
               ("output_file", .str output_path)]))
      (fun e => errorDict ("Failed to run Grasshopper definition: " ++ e)),
     ["EvaluateDefinition " ++ p])

/-!  The weather MCP server (`MCP1/server.py`).  These tools have no
`try`/`except`, so any raised exception propagates out as an
`Except.error`. -/

/-- MCP1/server.py line 17. -/
def NWS_API_BASE : String := "https://api.weather.gov"

/-- Python-semantics oracles used by the weather tools: truthiness of
floats, `str()` of a float (for f-string interpolation of the
coordinates), `str()` of an arbitrary decoded value, the `:.1f`
rendering of a float, and the float computation
`(temp_c * 9/5) + 32` (which raises on truthy non-numbers). -/
structure WeatherOps (F : Type) where
  ftruthy : F → Bool
  showF : F → String
  pyStr : PyJson F → String
  ffmt1 : F → String
  c2f : PyJson F → Except String (PyJson F)

/-- Python `format(x, ".1f")` as used in the result f-string: defined
on ints (`n.0`), bools (ints in Python) and floats; raises on `None`,
strings, lists and dicts. -/
def fmt1 (ops : WeatherOps F) : PyJson F → Except String String
  | .int n => .ok (toString n ++ ".0")
  | .bool b => .ok (if b then "1.0" else "0.0")
  | .float x => .ok (ops.ffmt1 x)
  | .null => .error "TypeError: unsupported format string passed to NoneType"
  | .str _ => .error "ValueError: unknown format code f for str"
  | .arr _ => .error "TypeError: unsupported format string passed to list"
  | .obj _ => .error "TypeError: unsupported format string passed to dict"

/-- `requests.get` needs a string URL; a non-string value taken from a
JSON response raises. -/
def asUrl : PyJson F → Except String String
  | .str s => .ok s
  | _ => .error "InvalidURL: url must be a string"

/-- MCP1/server.py lines 21-31, `make_nws_request`: GET the url (the
oracle `respond` may raise), return the parsed JSON body on status
200 (`.json()` may raise) and `None` otherwise. -/
def make_nws_request (respond : String → Except String (HttpResponse F))
    (url : String) : Except String (Option (PyJson F)) :=
  match respond url with
  | .error e => .error e
  | .ok r =>
    if r.status == 200 then
      match r.body with
      | .error e => .error e
      | .ok j => .ok (some j)
    else .ok none

/-- Python `periods[:10]`: list slice, string slice (one-character
strings), TypeError otherwise. -/
def pySlice10 : PyJson F → Except String (List (PyJson F))
  | .arr xs => .ok (xs.take 10)
  | .str s => .ok ((s.toList.take 10).map (fun c => .str (String.mk [c])))
  | _ => .error "TypeError: unhashable type slice"

/-- MCP1/server.py lines 75-81: the per-period f-string of
`get_forecast` (each key lookup may raise KeyError). -/
def formatPeriod (ops : WeatherOps F) (period : PyJson F) :
    Except String String :=
  match period.getKey "name" with
  | .error e => .error e
  | .ok nm =>
    match period.getKey "temperature" with
    | .error e => .error e
    | .ok t =>
      match period.getKey "temperatureUnit" with
      | .error e => .error e
      | .ok tu =>
        match period.getKey "windSpeed" with
        | .error e => .error e
        | .ok ws =>
          match period.getKey "windDirection" with
          | .error e => .error e
          | .ok wd =>
            match period.getKey "detailedForecast" with
            | .error e => .error e
            | .ok df =>
              .ok ("\n" ++ ops.pyStr nm ++ ":\nTemperature: " ++ ops.pyStr t
                ++ "°" ++ ops.pyStr tu ++ "\nWind: " ++ ops.pyStr ws ++ " "
                ++ ops.pyStr wd ++ "\nForecast: " ++ ops.pyStr df ++ "\n")

/-- The `for period in periods[:10]` loop of `get_forecast`,
collecting the formatted strings (a raised KeyError propagates). -/
def formatPeriods (ops : WeatherOps F) : List (PyJson F) → Except String (List String)
  | [] => .ok []
  | p :: rest =>
    match formatPeriod ops p with
    | .error e => .error e
    | .ok s =>
      match formatPeriods ops rest with
      | .error e => .error e
      | .ok tl => .ok (s :: tl)

/-- MCP1/server.py lines 46-83, `get_forecast`: chain the points
request and the forecast request, with the `if not points_data` /
`if not forecast_data` falsiness guards, and join the formatted first
ten periods with a separator line.  The second component lists the
URLs requested. -/
def get_forecast (ops : WeatherOps F)
    (respond : String → Except String (HttpResponse F))
    (latitude longitude : F) : Except String (PyJson F) × List String :=
  let points_url := NWS_API_BASE ++ "/points/" ++ ops.showF latitude ++ ","
    ++ ops.showF longitude
  match make_nws_request respond points_url with
  | .error e => (.error e, [points_url])
  | .ok points_data? =>
    match points_data? with
    | none => (.ok (.str "Unable to fetch forecast data for this location."), [points_url])
    | some points_data =>
      if !points_data.truthy ops.ftruthy then
        (.ok (.str "Unable to fetch forecast data for this location."), [points_url])
      else
        match points_data.getKey "properties" with
        | .error e => (.error e, [points_url])
        | .ok props =>
          match props.getKey "forecast" with
          | .error e => (.error e, [points_url])
          | .ok fu_v =>
            match asUrl fu_v with
            | .error e => (.error e, [points_url])
            | .ok forecast_url =>
              match make_nws_request respond forecast_url with
              | .error e => (.error e, [points_url, forecast_url])
              | .ok forecast_data? =>
                match forecast_data? with
                | none =>
                  (.ok (.str "Unable to fetch detailed forecast."), [points_url, forecast_url])
                | some forecast_data =>
                  if !forecast_data.truthy ops.ftruthy then
                    (.ok (.str "Unable to fetch detailed forecast."), [points_url, forecast_url])
                  else
                    match forecast_data.getKey "properties" with
                    | .error e => (.error e, [points_url, forecast_url])
                    | .ok fprops =>
                      match fprops.getKey "periods" with
                      | .error e => (.error e, [points_url, forecast_url])
                      | .ok periods =>
                        match pySlice10 periods with
                        | .error e => (.error e, [points_url, forecast_url])
                        | .ok ps =>
                          match formatPeriods ops ps with
                          | .error e => (.error e, [points_url, forecast_url])
                          | .ok forecasts =>
                            (.ok (.str (String.intercalate "\n---\n" forecasts)),
                             [points_url, forecast_url])

/-- The tail of `get_current_weather` after the three requests
succeeded (MCP1/server.py lines 119-142): extract the observation
properties, compute `temp_c` through the two `.get` defaults, compute
`temp_f` only when `temp_c` is truthy (it stays `None` otherwise),
read humidity, wind and description, then build the result f-string —
which formats both `temp_c` and `temp_f` with `:.1f`
unconditionally. -/
def formatObservation (ops : WeatherOps F) (observation_data : PyJson F) :
    Except String (PyJson F) :=
  match observation_data.getKey "properties" with
  | .error e => .error e
  | .ok props =>
    match props.getDefault "temperature" (.obj []) with
    | .error e => .error e
    | .ok t0 =>
      match t0.getDefault "value" .null with
      | .error e => .error e
      | .ok temp_c =>
        match (if temp_c.truthy ops.ftruthy then ops.c2f temp_c else .ok .null) with
        | .error e => .error e
        | .ok temp_f =>
          match props.getDefault "relativeHumidity" (.obj []) with
          | .error e => .error e
          | .ok h0 =>
            match h0.getDefault "value" .null with
            | .error e => .error e
            | .ok humidity =>
              match props.getDefault "windSpeed" (.obj []) with
              | .error e => .error e
              | .ok w0 =>
                match w0.getDefault "value" .null with
                | .error e => .error e
                | .ok wind_speed =>
                  match props.getDefault "windDirection" (.obj []) with
                  | .error e => .error e
                  | .ok wd0 =>
                    match wd0.getDefault "value" .null with
                    | .error e => .error e
                    | .ok wind_direction =>
                      match props.getDefault "textDescription"
                          (.str "No description available") with
                      | .error e => .error e
                      | .ok description =>
                        match fmt1 ops temp_c with
                        | .error e => .error e
                        | .ok tc =>
                          match fmt1 ops temp_f with
                          | .error e => .error e
                          | .ok tf =>
                            .ok (.str (String.trim
                              ("\nCurrent Weather Conditions:\nDescription: "
                               ++ ops.pyStr description ++ "\nTemperature: "
                               ++ tc ++ "°C (" ++ tf ++ "°F)\nHumidity: "
                               ++ ops.pyStr humidity ++ "%\nWind Speed: "
                               ++ ops.pyStr wind_speed
                               ++ " m/s\nWind Direction: "
                               ++ ops.pyStr wind_direction ++ "°\n")))

/-- MCP1/server.py lines 85-142, `get_current_weather`: chain the
points, stations and latest-observation requests with their falsiness
guards, then format the observation.  No `try`/`except` anywhere: any
raised exception is an `Except.error` of the tool itself. -/
def get_current_weather (ops : WeatherOps F)
    (respond : String → Except String (HttpResponse F))
    (latitude longitude : F) : Except String (PyJson F) :=
  let points_url := NWS_API_BASE ++ "/points/" ++ ops.showF latitude ++ ","
    ++ ops.showF longitude
  match make_nws_request respond points_url with
  | .error e => .error e
  | .ok points_data? =>
    match points_data? with
    | none => .ok (.str "Unable to fetch weather data for this location.")
    | some points_data =>
      if !points_data.truthy ops.ftruthy then
        .ok (.str "Unable to fetch weather data for this location.")
      else
        match points_data.getKey "properties" with
        | .error e => .error e
        | .ok pprops =>
          match pprops.getKey "observationStations" with
          | .error e => .error e
          | .ok su_v =>
            match asUrl su_v with
            | .error e => .error e
            | .ok stations_url =>
              match make_nws_request respond stations_url with
              | .error e => .error e
              | .ok stations_data? =>
                match stations_data? with
                | none => .ok (.str "Unable to find nearby weather stations.")
                | some stations_data =>
                  if !stations_data.truthy ops.ftruthy then
                    .ok (.str "Unable to find nearby weather stations.")
                  else
                    match stations_data.getDefault "features" .null with
                    | .error e => .error e
                    | .ok feats =>
                      if !feats.truthy ops.ftruthy then
                        .ok (.str "Unable to find nearby weather stations.")
                      else
                        match stations_data.getKey "features" with
                        | .error e => .error e
                        | .ok features =>
                          match features.getIdx 0 with
                          | .error e => .error e
                          | .ok f0 =>
                            match f0.getKey "properties" with
                            | .error e => .error e
                            | .ok f0props =>
                              match f0props.getKey "stationIdentifier" with
                              | .error e => .error e
                              | .ok station_id =>
                                match make_nws_request respond
                                    (NWS_API_BASE ++ "/stations/"
                                     ++ ops.pyStr station_id
                                     ++ "/observations/latest") with
                                | .error e => .error e
                                | .ok observation_data? =>
                                  match observation_data? with
                                  | none =>
                                    .ok (.str "Unable to fetch current observations.")
                                  | some observation_data =>
                                    if !observation_data.truthy ops.ftruthy then
                                      .ok (.str "Unable to fetch current observations.")
                                    else
                                      formatObservation ops observation_data

/-!  Concrete oracle instances, used to evaluate the model on explicit
inputs (floats instantiated as `String`). -/

/-- Concrete Python-semantics oracles over `F := String`. -/
def cWeatherOps : WeatherOps String where
  ftruthy := fun s => !s.toList.isEmpty
  showF := fun s => s
  pyStr := fun j => match j with | .str s => s | .int n => toString n | _ => ""
  ffmt1 := fun s => s
  c2f := fun j => .ok j

/-- Concrete decode oracles over `F := String`: only the literal
`gobj` parses to a JSON object, every object decodes to a curve, every
string parses as a float, only `10` parses as an int. -/
def cDecodeOps : DecodeOps String where
  jsonLoads := fun s =>
    if s = "gobj" then .ok (.obj [("type", .str "Curve")])
    else .error "Expecting value"
  commonDecode := fun j =>
    match j with
    | .obj _ => .ok (some ⟨1, [RhinoClass.curve]⟩)
    | _ => .ok none
  parseFloat := fun s => .ok s
  parseInt := fun s => if s = "10" then .ok (10 : Int) else .error "invalid literal for int"

/-- A filesystem on which no path exists. -/
def cFsMissing : FsOps where
  isabs := fun _ => true
  abspath := fun s => s
  pathExists := fun _ => false

/-- A Rhino.Compute evaluation oracle that always raises. -/
def cEvalDef : String → List (DataTree String) → Except String (PyJson String) :=
  fun _ _ => .error "compute unavailable"

/-- Weather API responses for a `get_current_weather` run whose latest
observation has temperature value `null`. -/
def c1_respond : String → Except String (HttpResponse String) := fun url =>
  if url = "https://api.weather.gov/points/40.7,-74.0" then
    .ok ⟨200, .ok (.obj [("properties",
      .obj [("observationStations", .str "stations-url")])])⟩
  else if url = "stations-url" then
    .ok ⟨200, .ok (.obj [("features", .arr [.obj [("properties",
      .obj [("stationIdentifier", .str "KNYC")])]])])⟩
  else if url = "https://api.weather.gov/stations/KNYC/observations/latest" then
    .ok ⟨200, .ok (.obj [("properties",
      .obj [("temperature", .obj [("value", .null)])])])⟩
  else .error "unexpected request"

/-- Weather API responses for a `get_current_weather` run whose latest
observation has temperature value exactly `0`. -/
def c9_respond : String → Except String (HttpResponse String) := fun url =>
  if url = "https://api.weather.gov/points/42.4,-71.0" then
    .ok ⟨200, .ok (.obj [("properties",
      .obj [("observationStations", .str "stations-url-2")])])⟩
  else if url = "stations-url-2" then
    .ok ⟨200, .ok (.obj [("features", .arr [.obj [("properties",
      .obj [("stationIdentifier", .str "KBOS")])]])])⟩
  else if url = "https://api.weather.gov/stations/KBOS/observations/latest" then
    .ok ⟨200, .ok (.obj [("properties",
      .obj [("temperature", .obj [("value", .int 0)])])])⟩
  else .error "unexpected request"

/-- A points response with status 200 whose body parses to the empty
JSON object (a falsy value). -/
def c8_respond : String → Except String (HttpResponse String) := fun url =>
  if url = "https://api.weather.gov/points/41.8,-87.6" then
    .ok ⟨200, .ok (.obj [])⟩
  else .error "unexpected request"

/-- A weather API that always answers 404. -/
def c8a_respond : String → Except String (HttpResponse String) :=
  fun _ => .ok ⟨404, .ok .null⟩

/-- A weather API with a complete points/forecast exchange carrying a
single forecast period. -/
def c8w_respond : String → Except String (HttpResponse String) := fun url =>
  if url = "https://api.weather.gov/points/39.9,-75.2" then
    .ok ⟨200, .ok (.obj [("properties", .obj [("forecast", .str "forecast-url")])])⟩
  else if url = "forecast-url" then
    .ok ⟨200, .ok (.obj [("properties", .obj [("periods", .arr [.obj [
      ("name", .str "Tonight"), ("temperature", .int 60),
      ("temperatureUnit", .str "F"), ("windSpeed", .str "5 mph"),
      ("windDirection", .str "NW"), ("detailedForecast", .str "Clear")]])])])⟩
  else .error "unexpected request"

/-!  Shared helper lemmas. -/

/-- A `try`/`except` block always yields a value. -/
lemma pyTry_ok (body : Except String (PyJson F)) (handler : String → PyJson F) :
    ∃ d, pyTry body handler = .ok d := by
  cases body with
  | ok v => exact ⟨v, rfl⟩
  | error e => exact ⟨handler e, rfl⟩

/-- Successful `item['data']` lookups preserve the item count. -/
lemma datasOf_length : ∀ {items ds : List (PyJson F)},
    datasOf items = .ok ds → ds.length = items.length := by
  intro items
  induction items with
  | nil => intro ds h; cases h; rfl
  | cons item rest ih =>
    intro ds h
    unfold datasOf at h
    cases hk : item.getKey "data" with
    | error e => rw [hk] at h; cases h
    | ok d =>
      rw [hk] at h
      cases hr : datasOf rest with
      | error e => rw [hr] at h; cases h
      | ok tl => rw [hr] at h; cases h; simp [ih hr]

/-- The decode loop is the map of the per-item cascade over the item
datas, whenever all the `item['data']` lookups succeed. -/
lemma decodeLoop_eq_map (ops : DecodeOps F) : ∀ {items ds : List (PyJson F)},
    datasOf items = .ok ds →
    decodeLoop ops items = .ok (ds.map (decodeItem ops)) := by
  intro items
  induction items with
  | nil => intro ds h; cases h; rfl
  | cons item rest ih =>
    intro ds h
    unfold datasOf at h
    cases hk : item.getKey "data" with
    | error e => rw [hk] at h; cases h
    | ok d =>
      rw [hk] at h
      cases hr : datasOf rest with
      | error e => rw [hr] at h; cases h
      | ok tl =>
        rw [hr] at h; cases h
        unfold decodeLoop
        rw [hk, ih hr]
        rfl

/-- One loop iteration of `save_3dm_file` appends the first matching
add (in the claimed order) and nothing else. -/
lemma addOne_eq (h : Bool) (acc : List (AddMethod × Geom)) (v : GHVal F) :
    addOne h acc v = acc ++ (specAdd v).toList := by
  cases v with
  | geom g =>
    simp only [addOne, specAdd]
    by_cases h1 : g.classes.contains RhinoClass.curve
    · simp [h1]
    · by_cases h2 : g.classes.contains RhinoClass.point
      · simp [h1, h2]
      · by_cases h3 : g.classes.contains RhinoClass.surface
        · simp [h1, h2, h3]
        · by_cases h4 : g.classes.contains RhinoClass.mesh
          · simp [h1, h2, h3, h4]
          · by_cases h5 : g.classes.contains RhinoClass.brep
            · simp [h1, h2, h3, h4, h5]
            · by_cases h6 : g.classes.contains RhinoClass.subd
              · simp [h1, h2, h3, h4, h5, h6]
              · simp [h1, h2, h3, h4, h5, h6]
  | float x => simp [addOne, specAdd]
  | int n => simp [addOne, specAdd]
  | raw j => simp [addOne, specAdd]

/-- The `save_3dm_file` loop is `filterMap` of the first-match
dispatch. -/
lemma foldl_addOne (h : Bool) : ∀ (objs : List (GHVal F)) (acc : List (AddMethod × Geom)),
    objs.foldl (addOne h) acc = acc ++ objs.filterMap specAdd := by
  intro objs
  induction objs with
  | nil => intro acc; simp
  | cons v t ih =>
    intro acc
    rw [List.foldl_cons, addOne_eq, ih]
    cases hv : specAdd v with
    | none => simp [List.filterMap_cons, hv]
    | some p => simp [List.filterMap_cons, hv]

/-- The first-match dispatch never uses `AddSubD`. -/
lemma specAdd_ne_addSubD (v : GHVal F) (p : AddMethod × Geom)
    (hp : specAdd v = some p) : p.1 ≠ AddMethod.addSubD := by
  cases v with
  | geom g =>
    simp only [specAdd] at hp
    split at hp <;> first
      | (cases hp; simp)
      | skip
    split at hp <;> first
      | (cases hp; simp)
      | skip
    split at hp <;> first
      | (cases hp; simp)
      | skip
    split at hp <;> first
      | (cases hp; simp)
      | skip
    split at hp <;> first
      | (cases hp; simp)
      | skip
    split at hp
    · cases hp; simp
    · cases hp
  | float x => cases hp
  | int n => cases hp
  | raw j => cases hp

/-!  Claim theorems. -/

/-- Claim C2: for every item of the decoded branch, `decode_gh_output`
applies the fixed fallback cascade: (1) one pair of surrounding double
quotes is stripped from string data; (2) the rhino3dm geometry object
is appended when `CommonObject.Decode` of the JSON-parsed data
succeeds with a non-None result; (3) otherwise a float is appended
when the data contains a dot and parses; (4) else an int when it
parses; (5) otherwise the (quote-stripped) data is appended
unchanged. -/
theorem c2_decode_cascade (ops : DecodeOps F) :
    (∀ s : String, s.toList.head? = some '\x22' → s.toList.getLast? = some '\x22' →
      stripQuotes (F := F) (.str s) = .str (String.mk ((s.toList.drop 1).dropLast)))
    ∧ (∀ (d : PyJson F) (s : String) (j : PyJson F) (g : Geom),
        stripQuotes d = .str s → ops.jsonLoads s = .ok j →
        ops.commonDecode j = .ok (some g) → decodeItem ops d = .geom g)
    ∧ (∀ (d : PyJson F) (s : String) (x : F),
        stripQuotes d = .str s → tryGeom ops (.str s) = none →
        s.toList.contains '.' = true → ops.parseFloat s = .ok x →
        decodeItem ops d = .float x)
    ∧ (∀ (d : PyJson F) (s : String) (n : Int),
        stripQuotes d = .str s → tryGeom ops (.str s) = none →
        s.toList.contains '.' = false → ops.parseInt s = .ok n →
        decodeItem ops d = .int n)
    ∧ (∀ d : PyJson F, tryGeom ops (stripQuotes d) = none →
        tryNum ops (stripQuotes d) = none →
        decodeItem ops d = .raw (stripQuotes d)) := by
  refine ⟨?_, ?_, ?_, ?_, ?_⟩
  · intro s hs he
    show (if s.toList.head? == some '\x22' && s.toList.getLast? == some '\x22' then
            (PyJson.str (String.mk ((s.toList.drop 1).dropLast)) : PyJson F)
          else .str s)
        = .str (String.mk ((s.toList.drop 1).dropLast))
    rw [hs, he]
    rfl
  · intro d s j g hd hj hg
    unfold decodeItem
    rw [hd]
    simp [tryGeom, hj, hg]
  · intro d s x hd hg hdot hx
    have hnum : tryNum ops (PyJson.str s) = some (GHVal.float x) := by
      unfold tryNum
      simp only [dotIn]
      rw [hdot, hx]
    unfold decodeItem
    rw [hd, hg, hnum]
  · intro d s n hd hg hdot hn
    have hnum : tryNum ops (PyJson.str s) = some (GHVal.int n) := by
      unfold tryNum
      simp only [dotIn]
      rw [hdot, hn]
    unfold decodeItem
    rw [hd, hg, hnum]
  · intro d hg hn
    unfold decodeItem
    rw [hg, hn]

/-- Claim C2, witness: the concrete oracles exercise all five
conjuncts — quote stripping, geometry decode, float fallback, int
fallback and the raw string fallback. -/
theorem c2_witness :
    stripQuotes (F := String) (.str "\x22a\x22") = .str "a"
    ∧ decodeItem cDecodeOps (.str "gobj") = .geom ⟨1, [RhinoClass.curve]⟩
    ∧ decodeItem cDecodeOps (.str "1.5") = .float "1.5"
    ∧ decodeItem cDecodeOps (.str "\x2210\x22") = .int 10
    ∧ decodeItem cDecodeOps .null = .raw .null := by
  refine ⟨?_, ?_, ?_, ?_, ?_⟩
  · exact (c2_decode_cascade cDecodeOps).1 "\x22a\x22" (by decide) (by decide)
  · exact (c2_decode_cascade cDecodeOps).2.1 _ "gobj" _ _ (by rfl) (by rfl) (by rfl)
  · exact (c2_decode_cascade cDecodeOps).2.2.1 _ "1.5" _ (by rfl) (by rfl)
      (by decide) (by rfl)
  · exact (c2_decode_cascade cDecodeOps).2.2.2.1 _ "10" _ (by rfl) (by rfl)
      (by decide) (by rfl)
  · exact (c2_decode_cascade cDecodeOps).2.2.2.2 .null (by rfl) (by rfl)

/-- Claim C3: `save_3dm_file` adds each input object at most once,
under the first matching type in the fixed order Curve, Point,
Surface, Mesh, Brep, SubD (the latter through the generic
`Objects.Add`); objects matching none of these types are silently
omitted; and the file is written exactly once.  All of this is the
equation with `filterMap specAdd` and the singleton write list. -/
theorem c3_save_3dm_spec (hasattrSubD : Bool) (objs : List (GHVal F))
    (filename : String) :
    save_3dm_file hasattrSubD objs filename =
      ⟨objs.filterMap specAdd, [filename]⟩ := by
  unfold save_3dm_file
  rw [foldl_addOne]
  rfl

/-- Claim C4: whenever `decode_gh_output` accepts its payload (all the
lookups down to the branch succeed, and each branch item has a `data`
entry), it returns the map of the per-item cascade over the item datas
— exactly one entry per branch item, in branch order. -/
theorem c4_decode_one_per_item (ops : DecodeOps F) (output : PyJson F)
    (tree_path : String) (vs v0 it br : PyJson F) (items ds : List (PyJson F))
    (h1 : output.getKey "values" = .ok vs)
    (h2 : vs.getIdx 0 = .ok v0)
    (h3 : v0.getKey "InnerTree" = .ok it)
    (h4 : it.getKey tree_path = .ok br)
    (h5 : br.pyIter = .ok items)
    (h6 : datasOf items = .ok ds) :
    decode_gh_output ops output tree_path = .ok (ds.map (decodeItem ops))
    ∧ (ds.map (decodeItem ops)).length = items.length := by
  constructor
  · simp only [decode_gh_output, h1, h2, h3, h4, h5]
    exact decodeLoop_eq_map ops h6
  · simp [datasOf_length h6]

/-- Claim C4, witness: a two-item branch decodes to exactly two
results in branch order. -/
theorem c4_witness :
    decode_gh_output cDecodeOps
      (.obj [("values", .arr [.obj [("InnerTree",
        .obj [("\x7b0\x7d", .arr [.obj [("data", .str "10")],
                                  .obj [("data", .str "2.5")]])])]])])
      "\x7b0\x7d"
      = .ok (([PyJson.str "10", PyJson.str "2.5"] : List (PyJson String)).map
          (decodeItem cDecodeOps))
    ∧ (([PyJson.str "10", PyJson.str "2.5"] : List (PyJson String)).map
        (decodeItem cDecodeOps)).length
      = ([PyJson.obj [("data", .str "10")], PyJson.obj [("data", .str "2.5")]]
          : List (PyJson String)).length :=
  c4_decode_one_per_item cDecodeOps _ _ _ _ _ _ _ _ (by rfl) (by rfl) (by rfl)
    (by rfl) (by rfl) (by rfl)

/-- Claim C5: `add_parameter` returns a data tree named after the
input that contains exactly one branch, at path `[0]`, holding the
single given value and nothing else. -/
theorem c5_add_parameter_single_branch (input_name : String)
    (input_value : PyJson F) :
    (add_parameter input_name input_value).ParamName = input_name
    ∧ (add_parameter input_name input_value).InnerTree
      = [(pathKey [0], [input_value])] :=
  ⟨rfl, rfl⟩

/-- Claim C10: the second SubD branch of `save_3dm_file` (the one
calling `AddSubD`) is unreachable: no object is ever recorded as added
through `AddSubD`, for any input list and either value of the
`hasattr` test. -/
theorem c10_addsubd_unreachable (hasattrSubD : Bool) (objs : List (GHVal F))
    (filename : String) :
    ((save_3dm_file hasattrSubD objs filename).objects.all
      (fun e => decide (e.1 ≠ AddMethod.addSubD))) = true := by
  unfold save_3dm_file
  rw [foldl_addOne]
  simp only [List.nil_append, List.all_eq_true, decide_eq_true_eq]
  intro e he
  rw [List.mem_filterMap] at he
  obtain ⟨v, -, hv⟩ := he
  exact specAdd_ne_addSubD v e hv

/-- Claim C6: when the resolved pointer does not exist on disk, both
`read_grasshopper_inputs_outputs` and `run_grasshopper_tool` return
the not-found error dict, issue no request to Rhino.Compute, and do
not evaluate the definition (their request logs are empty). -/
theorem c6_missing_file_no_request (fs : FsOps)
    (post_io : Except String (HttpResponse F)) (dops : DecodeOps F)
    (evalDef : String → List (DataTree F) → Except String (PyJson F))
    (createPath : Except String String) (hasattrSubD : Bool)
    (pointer : String) (inputs : List (String × PyJson F))
    (h : fs.pathExists (resolve_path fs.isabs fs.abspath pointer) = false) :
    read_grasshopper_inputs_outputs fs post_io pointer =
      (.ok (errorDict ("Grasshopper file not found: \x27"
        ++ resolve_path fs.isabs fs.abspath pointer ++ "\x27")), [])
    ∧ run_grasshopper_tool fs dops evalDef createPath hasattrSubD pointer inputs =
      (.ok (errorDict ("Grasshopper file not found: \x27"
        ++ resolve_path fs.isabs fs.abspath pointer ++ "\x27")), []) := by
  constructor
  · simp [read_grasshopper_inputs_outputs, h]
  · simp [run_grasshopper_tool, h]

/-- Claim C6, witness: on a filesystem where no path exists, both
tools answer with the not-found dict and an empty request log. -/
theorem c6_witness :
    read_grasshopper_inputs_outputs (F := String) cFsMissing (.error "unused") "def.gh" =
      (.ok (errorDict ("Grasshopper file not found: \x27"
        ++ resolve_path cFsMissing.isabs cFsMissing.abspath "def.gh" ++ "\x27")), [])
    ∧ run_grasshopper_tool cFsMissing cDecodeOps cEvalDef (.ok "out.3dm") true
        "def.gh" [] =
      (.ok (errorDict ("Grasshopper file not found: \x27"
        ++ resolve_path cFsMissing.isabs cFsMissing.abspath "def.gh" ++ "\x27")), []) :=
  c6_missing_file_no_request cFsMissing (.error "unused") cDecodeOps cEvalDef
    (.ok "out.3dm") true "def.gh" [] (by rfl)

/-- Claim C7: `get_rhinocompute_version_details` reshapes its single
GET: whenever the response body parses as JSON it returns the success
dict with the parsed body, regardless of the HTTP status code, and it
returns an error dict exactly in the remaining cases — the request
raising or `.json()` raising. -/
theorem c7_version_details (resp : Except String (HttpResponse F)) :
    (∀ (r : HttpResponse F) (j : PyJson F), resp = .ok r → r.body = .ok j →
      get_rhinocompute_version_details resp
        = .ok (.obj [("status", .str "success"), ("version_info", j)]))
    ∧ (∀ e : String, resp = .error e →
      get_rhinocompute_version_details resp
        = .ok (errorDict ("Failed to contact Rhino.Compute: " ++ e)))
    ∧ (∀ (r : HttpResponse F) (e : String), resp = .ok r → r.body = .error e →
      get_rhinocompute_version_details resp
        = .ok (errorDict ("Failed to contact Rhino.Compute: " ++ e))) := by
  refine ⟨?_, ?_, ?_⟩
  · intro r j hr hb
    subst hr
    simp [get_rhinocompute_version_details, pyTry, hb]
  · intro e hr
    subst hr
    simp [get_rhinocompute_version_details, pyTry]
  · intro r e hr hb
    subst hr
    simp [get_rhinocompute_version_details, pyTry, hb]

/-- Claim C7, witness: a 500 response with a JSON body still yields
the success dict; a raising request and a non-JSON body yield the
stringified error dict. -/
theorem c7_witness :
    get_rhinocompute_version_details (F := String) (.ok ⟨500, .ok (.int 1)⟩)
      = .ok (.obj [("status", .str "success"), ("version_info", .int 1)])
    ∧ get_rhinocompute_version_details (F := String) (.error "connection refused")
      = .ok (errorDict ("Failed to contact Rhino.Compute: " ++ "connection refused"))
    ∧ get_rhinocompute_version_details (F := String) (.ok ⟨200, .error "Expecting value"⟩)
      = .ok (errorDict ("Failed to contact Rhino.Compute: " ++ "Expecting value")) :=
  ⟨(c7_version_details _).1 _ _ rfl rfl,
   (c7_version_details _).2.1 _ rfl,
   (c7_version_details _).2.2 _ _ rfl rfl⟩

/-- Claim C1, corrected: not every tool catches its exceptions.  This
theorem is the amended claim: the Rhino.Compute server's tools never
propagate an exception — `get_rhinocompute_version_details`,
`read_grasshopper_inputs_outputs` and `run_grasshopper_tool` always
return a value, for every behaviour of the request, filesystem,
evaluation and decode oracles — and when the version request raises,
the returned value is the error dict containing the stringified
exception message.  (The weather tools of MCP1 are the exception; see
the counterexample.) -/
theorem c1_amended_no_propagation (resp : Except String (HttpResponse F))
    (fs : FsOps) (post_io : Except String (HttpResponse F)) (dops : DecodeOps F)
    (evalDef : String → List (DataTree F) → Except String (PyJson F))
    (createPath : Except String String) (hasattrSubD : Bool) (pointer : String)
    (inputs : List (String × PyJson F)) :
    (∃ d, get_rhinocompute_version_details resp = .ok d)
    ∧ (∃ d, (read_grasshopper_inputs_outputs fs post_io pointer).1 = .ok d)
    ∧ (∃ d, (run_grasshopper_tool fs dops evalDef createPath hasattrSubD
        pointer inputs).1 = .ok d)
    ∧ (∀ e : String, resp = .error e →
        get_rhinocompute_version_details resp
          = .ok (errorDict ("Failed to contact Rhino.Compute: " ++ e))) := by
  refine ⟨?_, ?_, ?_, ?_⟩
  · exact pyTry_ok _ _
  · cases hc : fs.pathExists (resolve_path fs.isabs fs.abspath pointer) with
    | false =>
      refine ⟨errorDict ("Grasshopper file not found: \x27"
        ++ resolve_path fs.isabs fs.abspath pointer ++ "\x27"), ?_⟩
      simp [read_grasshopper_inputs_outputs, hc]
    | true =>
      simp only [read_grasshopper_inputs_outputs, hc]
      simpa using pyTry_ok _ _
  · cases hc : fs.pathExists (resolve_path fs.isabs fs.abspath pointer) with
    | false =>
      refine ⟨errorDict ("Grasshopper file not found: \x27"
        ++ resolve_path fs.isabs fs.abspath pointer ++ "\x27"), ?_⟩
      simp [run_grasshopper_tool, hc]
    | true =>
      simp only [run_grasshopper_tool, hc]
      simpa using pyTry_ok _ _
  · intro e hr
    subst hr
    simp [get_rhinocompute_version_details, pyTry]

/-- Claim C1, witness for the amended theorem: with a raising version
request, a missing file and a raising compute service, all three
Rhino.Compute tools still return values, and the version tool returns
the stringified error dict. -/
theorem c1_witness :
    (∃ d, get_rhinocompute_version_details (F := String) (.error "boom") = .ok d)
    ∧ (∃ d, (read_grasshopper_inputs_outputs (F := String) cFsMissing (.error "boom") "x.gh").1
        = .ok d)
    ∧ (∃ d, (run_grasshopper_tool cFsMissing cDecodeOps cEvalDef (.ok "out.3dm")
        true "x.gh" []).1 = .ok d)
    ∧ get_rhinocompute_version_details (F := String) (.error "boom")
        = .ok (errorDict ("Failed to contact Rhino.Compute: " ++ "boom")) := by
  obtain ⟨a, b, c, d⟩ := c1_amended_no_propagation (F := String) (.error "boom")
    cFsMissing (.error "boom") cDecodeOps cEvalDef (.ok "out.3dm") true "x.gh" []
  exact ⟨a, b, c, d "boom" rfl⟩

/-- Claim C1, counterexample: `get_current_weather` (MCP1/server.py)
propagates an exception to the caller.  Under concrete responses in
which all three chained requests succeed but the latest observation's
temperature value is `null`, the tool raises (formatting `None` with
`:.1f`) instead of returning a value — so it is not the case that
every MCP tool in the repository catches exceptions and returns an
error value. -/
theorem c1_counterexample :
    get_current_weather cWeatherOps c1_respond "40.7" "-74.0"
      = .error "TypeError: unsupported format string passed to NoneType" := by
  rfl

/-- Claim C8, counterexample: the points request can yield a 200
response whose body parses as JSON (the empty object, a falsy value),
and `get_forecast` then returns the "Unable to fetch forecast data"
string after a single request — whereas the claim, for a 200 JSON
response, requires a second request to the forecast URL and a
formatted forecast. -/
theorem c8_counterexample :
    c8_respond "https://api.weather.gov/points/41.8,-87.6"
      = .ok ⟨200, .ok (.obj [])⟩
    ∧ get_forecast cWeatherOps c8_respond "41.8" "-87.6"
      = (.ok (.str "Unable to fetch forecast data for this location."),
         ["https://api.weather.gov/points/41.8,-87.6"]) :=
  ⟨rfl, rfl⟩

/-- Claim C8, amended: `get_forecast` returns exactly the string
"Unable to fetch forecast data for this location." without a second
request when the points request yields a non-200 response, or a 200
response whose parsed JSON is falsy (a 200 response whose body fails
to parse raises instead); when the points request yields a 200
response with truthy JSON, it requests the forecast URL taken from the
points response and, when that second request also yields a 200
response with truthy JSON, returns the formatted forecasts of at most
the first 10 periods, joined by the separator line. -/
theorem c8_amended_forecast (ops : WeatherOps F)
    (respond : String → Except String (HttpResponse F))
    (latitude longitude : F) :
    (∀ (st : Nat) (b : Except String (PyJson F)),
      respond (NWS_API_BASE ++ "/points/" ++ ops.showF latitude ++ ","
        ++ ops.showF longitude) = .ok ⟨st, b⟩ → st ≠ 200 →
      get_forecast ops respond latitude longitude
        = (.ok (.str "Unable to fetch forecast data for this location."),
           [NWS_API_BASE ++ "/points/" ++ ops.showF latitude ++ ","
            ++ ops.showF longitude]))
    ∧ (∀ j : PyJson F,
      respond (NWS_API_BASE ++ "/points/" ++ ops.showF latitude ++ ","
        ++ ops.showF longitude) = .ok ⟨200, .ok j⟩ →
      j.truthy ops.ftruthy = false →
      get_forecast ops respond latitude longitude
        = (.ok (.str "Unable to fetch forecast data for this location."),
           [NWS_API_BASE ++ "/points/" ++ ops.showF latitude ++ ","
            ++ ops.showF longitude]))
    ∧ (∀ (pd pr : PyJson F) (fu : String) (fd fpr : PyJson F)
        (periods : List (PyJson F)) (fss : List String),
      respond (NWS_API_BASE ++ "/points/" ++ ops.showF latitude ++ ","
        ++ ops.showF longitude) = .ok ⟨200, .ok pd⟩ →
      pd.truthy ops.ftruthy = true →
      pd.getKey "properties" = .ok pr →
      pr.getKey "forecast" = .ok (.str fu) →
      respond fu = .ok ⟨200, .ok fd⟩ →
      fd.truthy ops.ftruthy = true →
      fd.getKey "properties" = .ok fpr →
      fpr.getKey "periods" = .ok (.arr periods) →
      formatPeriods ops (periods.take 10) = .ok fss →
      get_forecast ops respond latitude longitude
        = (.ok (.str (String.intercalate "\n---\n" fss)),
           [NWS_API_BASE ++ "/points/" ++ ops.showF latitude ++ ","
            ++ ops.showF longitude, fu])) := by
  refine ⟨?_, ?_, ?_⟩
  · intro st b h1 hst
    simp [get_forecast, make_nws_request, h1, hst]
  · intro j h1 ht
    simp [get_forecast, make_nws_request, h1, ht]
  · intro pd pr fu fd fpr periods fss h1 h2 h3 h4 h5 h6 h7 h8 h9
    simp [get_forecast, make_nws_request, asUrl, pySlice10,
          h1, h2, h3, h4, h5, h6, h7, h8, h9]

/-- Claim C8, witness for the amended theorem: a 404 points response
yields the error string after one request, and a complete
points/forecast exchange yields the formatted single period joined
result after two requests. -/
theorem c8_witness :
    get_forecast cWeatherOps c8a_respond "40.0" "-80.0"
      = (.ok (.str "Unable to fetch forecast data for this location."),
         ["https://api.weather.gov/points/40.0,-80.0"])
    ∧ get_forecast cWeatherOps c8w_respond "39.9" "-75.2"
      = (.ok (.str (String.intercalate "\n---\n"
          ["\nTonight:\nTemperature: 60°F\nWind: 5 mph NW\nForecast: Clear\n"])),
         ["https://api.weather.gov/points/39.9,-75.2", "forecast-url"]) :=
  ⟨(c8_amended_forecast cWeatherOps c8a_respond "40.0" "-80.0").1 404 (.ok .null)
      (by rfl) (by decide),
   (c8_amended_forecast cWeatherOps c8w_respond "39.9" "-75.2").2.2 _ _
      "forecast-url" _ _ _ _ (by rfl) (by rfl) (by rfl) (by rfl) (by rfl)
      (by rfl) (by rfl) (by rfl) (by rfl)⟩

/-- Claim C9: when the three chained requests of
`get_current_weather` all succeed (status 200, truthy JSON, the
expected structure present) but the latest observation's temperature
value is `null` or exactly `0`, the tool raises an uncaught exception
instead of returning a string: `temp_f` is only computed when `temp_c`
is truthy, yet the result string formats both with `:.1f`, which
raises on `None`. -/
theorem c9_temperature_crash (ops : WeatherOps F)
    (respond : String → Except String (HttpResponse F)) (latitude longitude : F)
    (pd pp : PyJson F) (su : String) (sd feats f0 f0props sid od props t0 temp_c
      h0 humidity w0 wind_speed wd0 wind_direction description : PyJson F)
    (hp : respond (NWS_API_BASE ++ "/points/" ++ ops.showF latitude ++ ","
      ++ ops.showF longitude) = .ok ⟨200, .ok pd⟩)
    (hpt : pd.truthy ops.ftruthy = true)
    (hpp : pd.getKey "properties" = .ok pp)
    (hsu : pp.getKey "observationStations" = .ok (.str su))
    (hs : respond su = .ok ⟨200, .ok sd⟩)
    (hst : sd.truthy ops.ftruthy = true)
    (hfd : sd.getDefault "features" .null = .ok feats)
    (hft : feats.truthy ops.ftruthy = true)
    (hfk : sd.getKey "features" = .ok feats)
    (hf0 : feats.getIdx 0 = .ok f0)
    (hf0p : f0.getKey "properties" = .ok f0props)
    (hsid : f0props.getKey "stationIdentifier" = .ok sid)
    (ho : respond (NWS_API_BASE ++ "/stations/" ++ ops.pyStr sid
      ++ "/observations/latest") = .ok ⟨200, .ok od⟩)
    (hot : od.truthy ops.ftruthy = true)
    (hobs : od.getKey "properties" = .ok props)
    (htemp : props.getDefault "temperature" (.obj []) = .ok t0)
    (hval : t0.getDefault "value" .null = .ok temp_c)
    (hh0 : props.getDefault "relativeHumidity" (.obj []) = .ok h0)
    (hhum : h0.getDefault "value" .null = .ok humidity)
    (hw0 : props.getDefault "windSpeed" (.obj []) = .ok w0)
    (hws : w0.getDefault "value" .null = .ok wind_speed)
    (hwd0 : props.getDefault "windDirection" (.obj []) = .ok wd0)
    (hwdir : wd0.getDefault "value" .null = .ok wind_direction)
    (hdesc : props.getDefault "textDescription" (.str "No description available")
      = .ok description)
    (hnull : temp_c = PyJson.null ∨ temp_c = PyJson.int 0) :
    ∃ e, get_current_weather ops respond latitude longitude = .error e := by
  refine ⟨"TypeError: unsupported format string passed to NoneType", ?_⟩
  have tnull : PyJson.truthy ops.ftruthy PyJson.null = false := rfl
  have tzero : PyJson.truthy ops.ftruthy (PyJson.int 0) = false := rfl
  rcases hnull with h | h <;> subst h <;>
    simp [get_current_weather, make_nws_request, formatObservation, asUrl, fmt1,
      tnull, tzero, hp, hpt, hpp, hsu, hs, hst, hfd, hft, hfk, hf0, hf0p, hsid,
      ho, hot, hobs, htemp, hval, hh0, hhum, hw0, hws, hwd0, hwdir, hdesc]

/-- Claim C9, witness: a concrete exchange whose observation reports
temperature value exactly `0` makes `get_current_weather` raise. -/
theorem c9_witness :
    ∃ e, get_current_weather cWeatherOps c9_respond "42.4" "-71.0" = .error e :=
  c9_temperature_crash cWeatherOps c9_respond "42.4" "-71.0"
    _ _ "stations-url-2" _ _ _ _ _ _ _ _ _ _ _ _ _ _ _ _
    (by rfl) (by rfl) (by rfl) (by rfl) (by rfl) (by rfl) (by rfl) (by rfl)
    (by rfl) (by rfl) (by rfl) (by rfl) (by rfl) (by rfl) (by rfl) (by rfl)
    (by rfl) (by rfl) (by rfl) (by rfl) (by rfl) (by rfl) (by rfl) (by rfl)
    (Or.inr rfl)
